import Mathlib

/-!
Verification of the mvsim collision-shape cache and vehicle-base core.

Shallow embedding of `src/modules/simulator/src/CollisionShapeCache.cpp` and
`src/modules/simulator/include/mvsim/VehicleBase.h`.  Machine floats are
modelled as exact rationals; geometry buffers are finite lists.  Parts of the
repository whose sources are not available (Shape2p5, Wheel, the CSV logger,
the concrete vehicle-dynamics variants) are modelled from the specification
and carry a doc comment saying so.
-/

namespace Mvsim

/-- Model of mrpt::math::TPoint3Df: a 3D point with rational coordinates. -/
structure Point3 where
  x : ℚ
  y : ℚ
  z : ℚ
deriving DecidableEq, Repr

/-- Componentwise scaling, modelling `orgPt * modelScale` on a TPoint3Df. -/
def Point3.smul (p : Point3) (s : ℚ) : Point3 :=
  ⟨p.x * s, p.y * s, p.z * s⟩

/-- Projection of a 3D point onto the XY plane (the 2D footprint plane). -/
def Point3.projXY (p : Point3) : ℚ × ℚ :=
  (p.x, p.y)

/-- Model of mrpt::poses::CPose3D: a rigid transform given by a 3x3 rotation
matrix (row major) and a translation vector. -/
structure Pose3 where
  r11 : ℚ
  r12 : ℚ
  r13 : ℚ
  r21 : ℚ
  r22 : ℚ
  r23 : ℚ
  r31 : ℚ
  r32 : ℚ
  r33 : ℚ
  tx : ℚ
  ty : ℚ
  tz : ℚ
deriving DecidableEq, Repr

/-- Model of CPose3D::composePoint: apply the rotation then the translation. -/
def Pose3.composePoint (P : Pose3) (p : Point3) : Point3 :=
  ⟨P.r11 * p.x + P.r12 * p.y + P.r13 * p.z + P.tx,
   P.r21 * p.x + P.r22 * p.y + P.r23 * p.z + P.ty,
   P.r31 * p.x + P.r32 * p.y + P.r33 * p.z + P.tz⟩

/-- The identity pose (no rotation, no translation). -/
def Pose3.identity : Pose3 :=
  ⟨1, 0, 0, 0, 1, 0, 0, 0, 1, 0, 0, 0⟩

/-- One triangle of a shader triangle buffer; the source iterates
`tri.vertices`, an array of three vertices. -/
structure Tri where
  v1 : Point3
  v2 : Point3
  v3 : Point3
deriving DecidableEq, Repr

/-- The three vertices of a triangle, in buffer order. -/
def Tri.vertices (t : Tri) : List Point3 :=
  [t.v1, t.v2, t.v3]

/-- All vertices of a list of triangles, in traversal order. -/
def trisVertices (ts : List Tri) : List Point3 :=
  ts.foldr (fun t acc => t.vertices ++ acc) []

/-- Vertices contributed by the textured sub-objects of a CAssimpModel; null
entries are skipped (`if (!o) continue;`). -/
def assimpVertices (objs : List (Option (List Tri))) : List Point3 :=
  objs.foldr (fun ob acc => trisVertices (ob.getD []) ++ acc) []

/-- Model of the mrpt::opengl::CRenderizable passed to the cache: the set of
geometry buffers the dynamic casts of CollisionShapeCache.cpp can expose.
`none` models a failing dynamic_cast for that shader family. -/
structure VisualObject where
  trianglesBuffer : Option (List Tri)
  texturedTrianglesBuffer : Option (List Tri)
  pointsBuffer : Option (List Point3)
  wireframeBuffer : Option (List Point3)
  assimpTexturedObjects : Option (List (Option (List Tri)))
deriving DecidableEq, Repr

/-- Every vertex the visual object exposes, in the traversal order of
CollisionShapeCache::get: triangle buffer, textured-triangle buffer, point
buffer, wireframe buffer, then the Assimp textured sub-objects. -/
def VisualObject.allVertices (o : VisualObject) : List Point3 :=
  trisVertices (o.trianglesBuffer.getD [])
    ++ trisVertices (o.texturedTrianglesBuffer.getD [])
    ++ o.pointsBuffer.getD []
    ++ o.wireframeBuffer.getD []
    ++ assimpVertices (o.assimpTexturedObjects.getD [])

/-- The transform applied by lambdaUpdatePt:
`modelPose.composePoint(orgPt * modelScale)`. -/
def transformVertex (modelPose : Pose3) (modelScale : ℚ) (orgPt : Point3) : Point3 :=
  modelPose.composePoint (orgPt.smul modelScale)

/-- The height-band test of lambdaUpdatePt: the point is kept unless
`pt.z < zMin || pt.z > zMax`. -/
def insideBand (zMin zMax : ℚ) (pt : Point3) : Bool :=
  !(decide (pt.z < zMin) || decide (pt.z > zMax))

/-- The surviving transformed points (`allPts` of the source): every exposed
vertex, transformed by pose and scale, kept when its height lies in the
closed band. -/
def extractedPoints
    (o : VisualObject) (zMin zMax : ℚ) (modelPose : Pose3) (modelScale : ℚ) :
    List Point3 :=
  ((o.allVertices).map (transformVertex modelPose modelScale)).filter
    (insideBand zMin zMax)

/-- Cross product of the vectors o→a and o→b, used by the hull sweep. -/
def cross2 (o a b : ℚ × ℚ) : ℚ :=
  (a.1 - o.1) * (b.2 - o.2) - (a.2 - o.2) * (b.1 - o.1)

/-- Lexicographic order on 2D points, as a Boolean test. -/
def lexLt (a b : ℚ × ℚ) : Bool :=
  decide (a.1 < b.1) || (decide (a.1 = b.1) && decide (a.2 < b.2))

/-- Insert a point into a lexicographically sorted list. -/
def insertLex (p : ℚ × ℚ) : List (ℚ × ℚ) → List (ℚ × ℚ)
  | [] => [p]
  | q :: qs => if lexLt p q then p :: q :: qs else q :: insertLex p qs

/-- Sort a list of 2D points lexicographically (insertion sort). -/
def sortLex (l : List (ℚ × ℚ)) : List (ℚ × ℚ) :=
  l.foldr insertLex []

/-- Push a point onto a hull chain (head = most recent point), popping the
points that stop being extreme. -/
def chainPush (p : ℚ × ℚ) : List (ℚ × ℚ) → List (ℚ × ℚ)
  | a :: b :: rest =>
      if cross2 b a p ≤ 0 then chainPush p (b :: rest) else p :: a :: b :: rest
  | l => p :: l

/-- One half (lower or upper) of the monotone-chain convex hull of a sorted
point list. -/
def halfHull (pts : List (ℚ × ℚ)) : List (ℚ × ℚ) :=
  (pts.foldl (fun st p => chainPush p st) []).reverse

/-- The convex-hull polygon of a 2D point cloud: lower chain of the
lexicographically sorted points followed by the upper chain. -/
def convexHullPoly (pts : List (ℚ × ℚ)) : List (ℚ × ℚ) :=
  let s := sortLex pts
  halfHull s ++ halfHull s.reverse

/-- Twice the signed area terms of a polygon, by the shoelace formula;
`first` closes the cycle. -/
def shoelaceAux (first : ℚ × ℚ) : List (ℚ × ℚ) → ℚ
  | [] => 0
  | [p] => p.1 * first.2 - first.1 * p.2
  | p :: q :: rest => (p.1 * q.2 - q.1 * p.2) + shoelaceAux first (q :: rest)

/-- Unsigned area of a polygon given by its vertex cycle. -/
def polygonArea (l : List (ℚ × ℚ)) : ℚ :=
  match l with
  | [] => 0
  | p :: _ => |shoelaceAux p l| / 2

/-- Modelled from the spec: Shape2p5 (its source is not under src/) is an
ordered convex polygon footprint plus the height band it was extruded from,
with a derived volume measure.  The model stores the surviving projected
generator points in `contour`; the polygon itself is their convex hull (see
`Shape2p5.footprint` and `Shape2p5.volume`). -/
structure Shape2p5 where
  contour : List (ℚ × ℚ)
  zMin : ℚ
  zMax : ℚ
deriving DecidableEq, Repr

/-- Modelled from the spec: the 2D region of the shape is the convex hull of
its stored points. -/
def Shape2p5.footprint (s : Shape2p5) : Set (ℚ × ℚ) :=
  convexHull ℚ {q | q ∈ s.contour}

/-- Modelled from the spec: the derived volume measure — the area of the
convex hull of the stored points, times the height of the band. -/
def Shape2p5.volume (s : Shape2p5) : ℚ :=
  polygonArea (convexHullPoly s.contour) * (s.zMax - s.zMin)

/-- Modelled from the spec: Shape2p5::CreateConvexHullFromPoints (not under
src/) — the convex hull of all surviving projected 2D points, together with
the height band, is the result.  The source call site passes only the point
cloud; the spec pairs the hull with the band, so the model threads the band
explicitly. -/
def Shape2p5.CreateConvexHullFromPoints
    (pts : List Point3) (zMin zMax : ℚ) : Shape2p5 :=
  ⟨pts.map Point3.projXY, zMin, zMax⟩

/-- Lookup in an association list, modelling std::map::find. -/
def AssocList.find? {α : Type} : List (String × α) → String → Option α
  | [], _ => none
  | (k, v) :: rest, key => if k = key then some v else AssocList.find? rest key

/-- Store under a key in an association list, modelling the net effect of
`cache[key] = value` on a std::map. -/
def AssocList.store {α : Type} : List (String × α) → String → α → List (String × α)
  | [], key, v => [(key, v)]
  | (k, w) :: rest, key, v =>
      if k = key then (key, v) :: rest else (k, w) :: AssocList.store rest key v

/-- The cache map of CollisionShapeCache: model file name to its shape (the
entry type of the header holds the shape in its convexHull field). -/
abbrev CacheMap := List (String × Shape2p5)

/-- The cache lookup performed at the top of CollisionShapeCache::get: only
attempted when a model file key is present. -/
def cachedLookup (cache : CacheMap) (modelFile : Option String) : Option Shape2p5 :=
  match modelFile with
  | some k => AssocList.find? cache k
  | none => none

/-- The data of the exception thrown on a near-null collision volume.  The
THROW_EXCEPTION_FMT call interpolates exactly two values into its message:
the model file name (or "none") and the computed volume. -/
structure GeometryError where
  modelName : String
  vol : ℚ
deriving DecidableEq, Repr

/-- The name interpolated into the error message:
`modelFile.has_value() ? modelFile->c_str() : "none"`. -/
def modelNameOf (modelFile : Option String) : String :=
  modelFile.getD "none"

/-- The near-zero volume threshold of the source (`vol < 1e-8`). -/
def minVolumeThreshold : ℚ :=
  1 / 100000000

deriving instance DecidableEq for Except

/-- Outcome of one CollisionShapeCache::get call: the returned shape or the
thrown error, the cache map after the call, and the values of the counters of the source, `numTotalPts` and `numPassedPts` (zero when the call returns
from the cache without touching any buffer). -/
structure GetResult where
  result : Except GeometryError Shape2p5
  cache : CacheMap
  numTotalPts : Nat
  numPassedPts : Nat
deriving DecidableEq, Repr

/-- Model of CollisionShapeCache::get.  Faithful to the source control flow:
a present and cached key returns immediately; otherwise the surviving points
are extracted, the shape is built and — when a key was given — stored in the
cache by reference BEFORE the volume check, so the stored entry persists even
when the near-null-volume exception is thrown. -/
def CollisionShapeCache.get
    (cache : CacheMap) (obj : VisualObject) (zMin zMax : ℚ)
    (modelPose : Pose3) (modelScale : ℚ) (modelFile : Option String) :
    GetResult :=
  match cachedLookup cache modelFile with
  | some hit => ⟨Except.ok hit, cache, 0, 0⟩
  | none =>
      let allPts := extractedPoints obj zMin zMax modelPose modelScale
      let ret := Shape2p5.CreateConvexHullFromPoints allPts zMin zMax
      let cache2 :=
        match modelFile with
        | some k => AssocList.store cache k ret
        | none => cache
      let numTotal := (VisualObject.allVertices obj).length
      if ret.volume < minVolumeThreshold then
        ⟨Except.error ⟨modelNameOf modelFile, ret.volume⟩, cache2, numTotal,
          allPts.length⟩
      else
        ⟨Except.ok ret, cache2, numTotal, allPts.length⟩

/-- Model of mrpt::math::TTwist2D, the 2D twist (vx, vy, omega) returned by
the velocity accessors of VehicleBase. -/
structure Twist2 where
  vx : ℚ
  vy : ℚ
  omega : ℚ
deriving DecidableEq, Repr

/-- A planar pose (x, y, yaw) for the ground-truth vehicle state. -/
structure Pose2 where
  x : ℚ
  y : ℚ
  yaw : ℚ
deriving DecidableEq, Repr

/-- Modelled from the spec: Wheel (Wheel.h is not under src/) — geometry
(radius, width, longitudinal/lateral offset from the chassis reference,
steerable flag) plus runtime state (current spin velocity, last-applied
torque). -/
structure Wheel where
  x : ℚ
  y : ℚ
  radius : ℚ
  width : ℚ
  steerable : Bool
  spinVelocity : ℚ
  torque : ℚ
deriving DecidableEq, Repr

/-- A wheel with all fields zeroed except a unit radius. -/
def Wheel.default : Wheel :=
  ⟨0, 0, 1, 0, false, 0, 0⟩

/-- Modelled from the spec: CSVLogger (CsvLogger.h is not under src/) — one
log stream per logical channel, with a recording flag and the rows appended
so far. -/
structure CSVLogger where
  recording : Bool
  rows : Nat
deriving DecidableEq, Repr

/-- State of one VehicleBase object: the data members of VehicleBase.h, each
Lean field named after the corresponding member.  A shared_ptr map value is
an Option, with none for the null pointer.  The ground-truth pose and
velocity live in the Simulable base (not under src/) and are modelled from
the spec as q and dq. -/
structure VehicleState where
  vehicle_index : Nat
  chassis_mass : ℚ
  chassis_poly : List (ℚ × ℚ)
  maxRadius : ℚ
  chassis_com : ℚ × ℚ
  wheels_info : List Wheel
  loggers : List (String × Option CSVLogger)
  q : Pose2
  dq : Twist2
  assembled : Bool
deriving DecidableEq, Repr

/-- Model of the protected constructor `VehicleBase(World* parent, size_t
nWheels)`: the wheel vector receives its fixed size nWheels, and the data
members take the default values of the header (mass 15.0, max radius 0.1). -/
def VehicleBase.mkVehicle (nWheels : Nat) : VehicleState :=
  { vehicle_index := 0
    chassis_mass := 15
    chassis_poly := []
    maxRadius := 1 / 10
    chassis_com := (0, 0)
    wheels_info := List.replicate nWheels Wheel.default
    loggers := []
    q := ⟨0, 0, 0⟩
    dq := ⟨0, 0, 0⟩
    assembled := false }

/-- Model of `getNumWheels()`: `wheels_info_.size()`. -/
def VehicleBase.getNumWheels (v : VehicleState) : Nat :=
  v.wheels_info.length

/-- Model of std::map operator[] on the logger map: return the value of an
existing key, or default-insert a null shared_ptr for an absent key and
return it.  Yields the returned pointer and the map after the access. -/
def loggerBracket :
    List (String × Option CSVLogger) → String →
    Option CSVLogger × List (String × Option CSVLogger)
  | [], key => (none, [(key, none)])
  | (k, v) :: rest, key =>
      if k = key then (v, (k, v) :: rest)
      else
        let r := loggerBracket rest key
        (r.1, (k, v) :: r.2)

/-- Model of `getLoggerPtr(logger_name)`: `return loggers_[logger_name];` —
a std::map operator[] access on the logger map. -/
def VehicleBase.getLoggerPtr (v : VehicleState) (logger_name : String) :
    Option CSVLogger × VehicleState :=
  let r := loggerBracket v.loggers logger_name
  (r.1, { v with loggers := r.2 })

/-- Modelled from the spec: getVelocityLocalOdoEstimate is declared pure
virtual in VehicleBase.h and its concrete variants are not under src/; the
spec fixes it as a pure function of current wheel spin velocities and wheel
geometry only.  Modelled as the differential-drive variant: rim speeds of the
left wheel (index 0) and right wheel (index 1) give the forward speed as
their average and the yaw rate as their difference over the track width. -/
def VehicleBase.getVelocityLocalOdoEstimate (v : VehicleState) : Twist2 :=
  let wl := v.wheels_info.getD 0 Wheel.default
  let wr := v.wheels_info.getD 1 Wheel.default
  let vl := wl.spinVelocity * wl.radius
  let vr := wr.spinVelocity * wr.radius
  let d := wr.y - wl.y
  ⟨(vl + vr) / 2, 0, if d = 0 then 0 else (vr - vl) / d⟩

/-- Modelled from the spec: the operations applied to a vehicle after
construction (their bodies live in VehicleBase.cpp and the variant sources,
none under src/).  preStep applies per-wheel torques; postStep reads back
pose and velocity and updates per-wheel spin velocities; multibody assembly
creates the physics bodies; logging appends a row per active channel; the
wheel accessor can mutate the spin of one wheel; getLoggerPtr may default-insert
a logger entry. -/
inductive VehicleOp where
  | preStep (torques : List ℚ)
  | postStep (newPose : Pose2) (newVel : Twist2) (newSpins : List ℚ)
  | createMultibody
  | writeLogStrings
  | setWheelSpin (idx : Nat) (w : ℚ)
  | getLogger (name : String)
deriving DecidableEq, Repr

/-- Update the wheel at each index with the matching value of a list, leaving
wheels without a matching value unchanged. -/
def updateWheels (f : Wheel → ℚ → Wheel) (ws : List Wheel) (vals : List ℚ) :
    List Wheel :=
  ws.mapIdx fun i w =>
    match vals.get? i with
    | some t => f w t
    | none => w

/-- Append one row to every active logger channel. -/
def appendLogRows (ls : List (String × Option CSVLogger)) :
    List (String × Option CSVLogger) :=
  ls.map fun kv => (kv.1, kv.2.map fun l => { l with rows := l.rows + 1 })

/-- Modelled from the spec: the state transition of each vehicle operation.
No operation resizes the wheel vector: torques and spins are written into
the existing wheels elementwise. -/
def applyOp (v : VehicleState) : VehicleOp → VehicleState
  | .preStep torques =>
      { v with
        wheels_info :=
          updateWheels (fun w t => { w with torque := t }) v.wheels_info torques }
  | .postStep newPose newVel newSpins =>
      { v with
        q := newPose
        dq := newVel
        wheels_info :=
          updateWheels (fun w s => { w with spinVelocity := s }) v.wheels_info
            newSpins
        loggers := appendLogRows v.loggers }
  | .createMultibody => { v with assembled := true }
  | .writeLogStrings => { v with loggers := appendLogRows v.loggers }
  | .setWheelSpin idx w =>
      { v with
        wheels_info :=
          v.wheels_info.set idx
            { v.wheels_info.getD idx Wheel.default with spinVelocity := w } }
  | .getLogger name => (VehicleBase.getLoggerPtr v name).2

/-- The wheel data the odometry estimate may depend on: radius, lateral
offset, spin velocity. -/
def wheelOdoData (w : Wheel) : ℚ × ℚ × ℚ :=
  (w.radius, w.y, w.spinVelocity)

/-- Concrete visual object: a point buffer holding one triangle footprint at
height zero. -/
def triObj : VisualObject :=
  ⟨none, none, some [⟨0, 0, 0⟩, ⟨1, 0, 0⟩, ⟨0, 1, 0⟩], none, none⟩

/-- The shape computed for triObj over the band [-1, 1] at identity pose and
unit scale. -/
def triShape : Shape2p5 :=
  ⟨[(0, 0), (1, 0), (0, 1)], -1, 1⟩

/-- Concrete visual object whose single vertex sits at height 100, above any
small band. -/
def highPointObj : VisualObject :=
  ⟨none, none, some [⟨0, 0, 100⟩], none, none⟩

/-- A concrete cached shape used to populate a cache by hand. -/
def storedShape : Shape2p5 :=
  ⟨[(3, 3), (4, 3), (3, 4)], 0, 2⟩

/-- A concrete pose: a quarter-turn about z with a translation. -/
def twistedPose : Pose3 :=
  ⟨0, -1, 0, 1, 0, 0, 0, 0, 1, 7, 8, 9⟩

/-- Two-wheel layout (left at y = -1/2, right at y = 1/2, unit radius) with
the given spin velocities. -/
def odoWheels (sl sr : ℚ) : List Wheel :=
  [⟨0, -(1 / 2), 1, 0, false, sl, 0⟩, ⟨0, 1 / 2, 1, 0, false, sr, 0⟩]

/-- A vehicle whose wheels both spin at unit velocity. -/
def odoVehicleMoving : VehicleState :=
  { VehicleBase.mkVehicle 2 with wheels_info := odoWheels 1 1, dq := ⟨5, 0, 0⟩ }

/-- The same vehicle with its ground-truth pose and velocity perturbed and
its wheels untouched. -/
def odoVehicleGtPerturbed : VehicleState :=
  { odoVehicleMoving with q := ⟨1, 2, 3⟩, dq := ⟨9, 9, 9⟩ }

/-- The same vehicle with both wheel spin velocities set to zero. -/
def odoVehicleStill : VehicleState :=
  { odoVehicleMoving with wheels_info := odoWheels 0 0 }

/-- The shape computed for triObj at scale 2 over the doubled band. -/
def scaledTriShape : Shape2p5 :=
  ⟨[(0, 0), (2, 0), (0, 2)], -2, 2⟩

/-- The degenerate shape cached by a failing keyed call on highPointObj over
the band [0, 1]: an empty contour with zero volume. -/
def emptyBlockShape : Shape2p5 :=
  ⟨[], 0, 1⟩

/-! Helper lemmas. -/

theorem AssocList.find?_store_self {α : Type} (l : List (String × α)) (key : String) (v : α) :
    AssocList.find? (AssocList.store l key v) key = some v := by
  induction l with
  | nil => simp [AssocList.store, AssocList.find?]
  | cons kv rest ih =>
    obtain ⟨k, w⟩ := kv
    by_cases hk : k = key
    · simp [AssocList.store, AssocList.find?, hk]
    · simp [AssocList.store, AssocList.find?, hk, ih]

theorem loggerBracket_absent (l : List (String × Option CSVLogger)) (key : String)
    (h : AssocList.find? l key = none) :
    loggerBracket l key = (none, l ++ [(key, none)]) := by
  induction l with
  | nil => rfl
  | cons kv rest ih =>
    obtain ⟨k, v⟩ := kv
    by_cases hk : k = key
    · simp [AssocList.find?, hk] at h
    · simp only [AssocList.find?, if_neg hk] at h
      simp [loggerBracket, hk, ih h]

theorem getD_map_eq {α β : Type} (f : α → β) (d : α) :
    ∀ (l : List α) (i : Nat), (l.map f).getD i (f d) = f (l.getD i d) := by
  intro l
  induction l with
  | nil => intro i; rfl
  | cons a t ih =>
    intro i
    cases i with
    | zero => rfl
    | succ j => exact ih j

theorem applyOp_wheelCount (v : VehicleState) (op : VehicleOp) :
    ((applyOp v op).wheels_info).length = v.wheels_info.length := by
  cases op <;>
    simp [applyOp, updateWheels, VehicleBase.getLoggerPtr]

theorem foldl_applyOp_wheelCount (ops : List VehicleOp) :
    ∀ v : VehicleState,
      ((ops.foldl applyOp v).wheels_info).length = v.wheels_info.length := by
  induction ops with
  | nil => intro v; rfl
  | cons op rest ih =>
    intro v
    rw [List.foldl_cons, ih, applyOp_wheelCount]

theorem identity_composePoint (p : Point3) :
    Pose3.identity.composePoint p = p := by
  simp [Pose3.composePoint, Pose3.identity]

theorem Point3.smul_one (p : Point3) : p.smul 1 = p := by
  simp [Point3.smul]

theorem transformVertex_identity_one (v : Point3) :
    transformVertex Pose3.identity 1 v = v := by
  simp [transformVertex, identity_composePoint, Point3.smul_one]

theorem transformVertex_identity_scale (s : ℚ) (v : Point3) :
    transformVertex Pose3.identity s v = v.smul s := by
  simp [transformVertex, identity_composePoint]

theorem insideBand_smul (z1 z2 s : ℚ) (hs : 0 < s) (v : Point3) :
    insideBand (s * z1) (s * z2) (v.smul s) = insideBand z1 z2 v := by
  have h1 : (v.z * s < s * z1) ↔ (v.z < z1) := by
    rw [mul_comm s z1]
    exact mul_lt_mul_right hs
  have h2 : (v.z * s > s * z2) ↔ (v.z > z2) := by
    rw [mul_comm s z2]
    exact mul_lt_mul_right hs
  simp [insideBand, Point3.smul, h1, h2]

theorem extractedPoints_scale (obj : VisualObject) (z1 z2 s : ℚ) (hs : 0 < s) :
    extractedPoints obj (s * z1) (s * z2) Pose3.identity s
      = (extractedPoints obj z1 z2 Pose3.identity 1).map (fun p => p.smul s) := by
  unfold extractedPoints
  have hmap1 : (VisualObject.allVertices obj).map (transformVertex Pose3.identity 1)
      = VisualObject.allVertices obj :=
    List.map_id'' transformVertex_identity_one _
  have hmaps : (VisualObject.allVertices obj).map (transformVertex Pose3.identity s)
      = (VisualObject.allVertices obj).map (fun p => p.smul s) := by
    rw [funext (transformVertex_identity_scale s)]
  rw [hmap1, hmaps, List.filter_map]
  congr 1
  exact List.filter_congr fun v _ => insideBand_smul z1 z2 s hs v

/-! Claim theorems. -/

/-- C4: for every assetKey already present in the cache,
CollisionShapeCache::get returns the cached shape unchanged regardless of the
zMin, zMax, modelPose and modelScale arguments of the current call, with no
recomputation (zero points traversed), no cache mutation and no error. -/
theorem get_cached_key_ignores_arguments
    (cache : CacheMap) (obj : VisualObject) (zMin zMax : ℚ) (pose : Pose3)
    (scale : ℚ) (key : String) (s : Shape2p5)
    (h : AssocList.find? cache key = some s) :
    CollisionShapeCache.get cache obj zMin zMax pose scale (some key) =
      ⟨Except.ok s, cache, 0, 0⟩ := by
  simp [CollisionShapeCache.get, cachedLookup, h]

/-- C4 witness: a cache holding storedShape under "asset" returns it for a
call whose band, pose and scale have nothing to do with the stored shape. -/
theorem get_cached_key_ignores_arguments_witness :
    AssocList.find? [("asset", storedShape)] "asset" = some storedShape
    ∧ CollisionShapeCache.get [("asset", storedShape)] triObj 10 20 twistedPose
        7 (some "asset") =
      ⟨Except.ok storedShape, [("asset", storedShape)], 0, 0⟩ :=
  ⟨rfl,
   get_cached_key_ignores_arguments [("asset", storedShape)] triObj 10 20
     twistedPose 7 "asset" storedShape rfl⟩

/-- C9: the number of wheels reported by getNumWheels equals the nWheels
value fixed at construction and is unchanged by every subsequent operation
(preStep, postStep, multibody assembly, logging, wheel accessors, logger
lookups), for any sequence of such operations. -/
theorem getNumWheels_invariant (n : Nat) (ops : List VehicleOp) :
    VehicleBase.getNumWheels (ops.foldl applyOp (VehicleBase.mkVehicle n)) = n := by
  simp [VehicleBase.getNumWheels, foldl_applyOp_wheelCount, VehicleBase.mkVehicle]

/-- C10: for a logger name not present in the logger map of the vehicle,
getLoggerPtr inserts a new entry holding a null pointer under that name and
returns that null pointer; the lookup itself never fails. -/
theorem getLoggerPtr_absent_inserts_null (v : VehicleState) (name : String)
    (h : AssocList.find? v.loggers name = none) :
    VehicleBase.getLoggerPtr v name =
      (none, { v with loggers := v.loggers ++ [(name, none)] }) := by
  simp [VehicleBase.getLoggerPtr, loggerBracket_absent _ _ h]

/-- C10 witness: a freshly constructed vehicle has no logger channels, and
asking for the pose channel inserts a null entry and returns null. -/
theorem getLoggerPtr_absent_inserts_null_witness :
    AssocList.find? (VehicleBase.mkVehicle 2).loggers "logger_pose" = none
    ∧ VehicleBase.getLoggerPtr (VehicleBase.mkVehicle 2) "logger_pose" =
        (none,
         { VehicleBase.mkVehicle 2 with
             loggers := (VehicleBase.mkVehicle 2).loggers ++ [("logger_pose", none)] }) :=
  ⟨rfl,
   getLoggerPtr_absent_inserts_null (VehicleBase.mkVehicle 2) "logger_pose" rfl⟩

/-- C8: the odometry estimate is a function of the wheel spin velocities and
wheel geometry only — any two vehicle states whose wheels agree on radius,
lateral offset and spin velocity give the same estimate, whatever their
ground-truth pose and velocity; and changing the wheel spin velocities can
change the estimate. -/
theorem odoEstimate_depends_only_on_wheels :
    (∀ s1 s2 : VehicleState,
        s1.wheels_info.map wheelOdoData = s2.wheels_info.map wheelOdoData →
        VehicleBase.getVelocityLocalOdoEstimate s1 =
          VehicleBase.getVelocityLocalOdoEstimate s2)
    ∧ VehicleBase.getVelocityLocalOdoEstimate odoVehicleMoving ≠
        VehicleBase.getVelocityLocalOdoEstimate odoVehicleStill := by
  constructor
  · intro s1 s2 h
    have h0 : wheelOdoData (s1.wheels_info.getD 0 Wheel.default) =
        wheelOdoData (s2.wheels_info.getD 0 Wheel.default) := by
      have hc := congrArg (fun l => l.getD 0 (wheelOdoData Wheel.default)) h
      simpa [getD_map_eq] using hc
    have h1 : wheelOdoData (s1.wheels_info.getD 1 Wheel.default) =
        wheelOdoData (s2.wheels_info.getD 1 Wheel.default) := by
      have hc := congrArg (fun l => l.getD 1 (wheelOdoData Wheel.default)) h
      simpa [getD_map_eq] using hc
    simp only [wheelOdoData, Prod.mk.injEq] at h0 h1
    simp only [VehicleBase.getVelocityLocalOdoEstimate]
    rw [h0.1, h0.2.1, h0.2.2, h1.1, h1.2.1, h1.2.2]
  · norm_num [VehicleBase.getVelocityLocalOdoEstimate, odoVehicleMoving,
      odoVehicleStill, odoWheels, Wheel.default, VehicleBase.mkVehicle,
      Twist2.mk.injEq]

/-- C8 witness: perturbing only the ground-truth pose and velocity leaves the
odometry estimate unchanged. -/
theorem odoEstimate_depends_only_on_wheels_witness :
    VehicleBase.getVelocityLocalOdoEstimate odoVehicleMoving =
      VehicleBase.getVelocityLocalOdoEstimate odoVehicleGtPerturbed :=
  odoEstimate_depends_only_on_wheels.1 odoVehicleMoving odoVehicleGtPerturbed rfl

/-- C1: a keyed call of CollisionShapeCache::get that returns a shape leaves
that shape stored in the cache under its key, and every subsequent call with
the same key and arguments returns the identical shape through the cached
entry, with an unchanged cache and zero points traversed. -/
theorem get_memoize_idempotent
    (cache : CacheMap) (obj : VisualObject) (zMin zMax : ℚ) (pose : Pose3)
    (scale : ℚ) (key : String) (s : Shape2p5)
    (h : (CollisionShapeCache.get cache obj zMin zMax pose scale (some key)).result
          = Except.ok s) :
    AssocList.find?
        (CollisionShapeCache.get cache obj zMin zMax pose scale (some key)).cache
        key = some s
    ∧ CollisionShapeCache.get
        (CollisionShapeCache.get cache obj zMin zMax pose scale (some key)).cache
        obj zMin zMax pose scale (some key)
      = ⟨Except.ok s,
         (CollisionShapeCache.get cache obj zMin zMax pose scale (some key)).cache,
         0, 0⟩ := by
  have hcached : AssocList.find?
      (CollisionShapeCache.get cache obj zMin zMax pose scale (some key)).cache
      key = some s := by
    rcases hc : AssocList.find? cache key with _ | hit
    · by_cases hv : (Shape2p5.CreateConvexHullFromPoints
          (extractedPoints obj zMin zMax pose scale) zMin zMax).volume
          < minVolumeThreshold
      · exfalso
        simp [CollisionShapeCache.get, cachedLookup, hc, hv] at h
      · have hret : Shape2p5.CreateConvexHullFromPoints
            (extractedPoints obj zMin zMax pose scale) zMin zMax = s := by
          simpa [CollisionShapeCache.get, cachedLookup, hc, hv] using h
        rw [hret] at hv
        simp [CollisionShapeCache.get, cachedLookup, hc, hv, hret,
          AssocList.find?_store_self]
    · have hs2 : hit = s := by
        simpa [CollisionShapeCache.get, cachedLookup, hc] using h
      simp [CollisionShapeCache.get, cachedLookup, hc, hs2]
  refine ⟨hcached, ?_⟩
  revert hcached
  generalize (CollisionShapeCache.get cache obj zMin zMax pose scale (some key)).cache = c2
  intro hcached
  simp [CollisionShapeCache.get, cachedLookup, hcached]

/-- C1 witness: the first keyed call on the triangle object succeeds, stores
the shape under the key, and the repeated identical call returns it from the
cache without traversal. -/
theorem get_memoize_idempotent_witness :
    (CollisionShapeCache.get [] triObj (-1) 1 Pose3.identity 1 (some "chassis")).result
      = Except.ok triShape
    ∧ (AssocList.find?
          (CollisionShapeCache.get [] triObj (-1) 1 Pose3.identity 1
            (some "chassis")).cache "chassis" = some triShape
       ∧ CollisionShapeCache.get
            (CollisionShapeCache.get [] triObj (-1) 1 Pose3.identity 1
              (some "chassis")).cache triObj (-1) 1 Pose3.identity 1 (some "chassis")
          = ⟨Except.ok triShape,
             (CollisionShapeCache.get [] triObj (-1) 1 Pose3.identity 1
               (some "chassis")).cache, 0, 0⟩) :=
  ⟨by norm_num [CollisionShapeCache.get, cachedLookup, AssocList.find?,
      extractedPoints, VisualObject.allVertices, triObj, triShape, trisVertices,
      assimpVertices, transformVertex, Pose3.composePoint, Pose3.identity,
      Point3.smul, insideBand, Shape2p5.CreateConvexHullFromPoints,
      Shape2p5.volume, convexHullPoly, sortLex, insertLex, lexLt, halfHull,
      chainPush, cross2, polygonArea, shoelaceAux, Point3.projXY,
      minVolumeThreshold, modelNameOf, AssocList.store],
   get_memoize_idempotent [] triObj (-1) 1 Pose3.identity 1 "chassis" triShape
     (by norm_num [CollisionShapeCache.get, cachedLookup, AssocList.find?,
        extractedPoints, VisualObject.allVertices, triObj, triShape, trisVertices,
        assimpVertices, transformVertex, Pose3.composePoint, Pose3.identity,
        Point3.smul, insideBand, Shape2p5.CreateConvexHullFromPoints,
        Shape2p5.volume, convexHullPoly, sortLex, insertLex, lexLt, halfHull,
        chainPush, cross2, polygonArea, shoelaceAux, Point3.projXY,
        minVolumeThreshold, modelNameOf, AssocList.store])⟩

/-- C2 counterexample: two failing keyed calls on the same geometry that use
different height bands produce exactly the same error data — the thrown
report interpolates only the asset name and the computed measure, so it does
not identify the height band used. -/
theorem get_error_omits_height_band :
    (CollisionShapeCache.get [] highPointObj 0 1 Pose3.identity 1
        (some "wall")).result
      = (CollisionShapeCache.get [] highPointObj 5 6 Pose3.identity 1
          (some "wall")).result
    ∧ (CollisionShapeCache.get [] highPointObj 0 1 Pose3.identity 1
        (some "wall")).result = Except.error ⟨"wall", 0⟩ := by
  constructor <;>
    norm_num [CollisionShapeCache.get, cachedLookup, AssocList.find?,
      extractedPoints, VisualObject.allVertices, highPointObj, trisVertices,
      assimpVertices, transformVertex, Pose3.composePoint, Pose3.identity,
      Point3.smul, insideBand, Shape2p5.CreateConvexHullFromPoints,
      Shape2p5.volume, convexHullPoly, sortLex, insertLex, lexLt, halfHull,
      chainPush, cross2, polygonArea, shoelaceAux, Point3.projXY,
      minVolumeThreshold, modelNameOf, AssocList.store]

/-- C2 amended: a cache-missing call whose surviving points yield a hull with
measure below the near-zero threshold fails with a geometry error carrying
the asset name and the computed measure (the height-band values are not part
of the error data). -/
theorem get_error_identifies_asset_and_measure
    (cache : CacheMap) (obj : VisualObject) (zMin zMax : ℚ) (pose : Pose3)
    (scale : ℚ) (modelFile : Option String)
    (hmiss : cachedLookup cache modelFile = none)
    (hvol : (Shape2p5.CreateConvexHullFromPoints
        (extractedPoints obj zMin zMax pose scale) zMin zMax).volume
        < minVolumeThreshold) :
    (CollisionShapeCache.get cache obj zMin zMax pose scale modelFile).result
      = Except.error
          ⟨modelNameOf modelFile,
           (Shape2p5.CreateConvexHullFromPoints
             (extractedPoints obj zMin zMax pose scale) zMin zMax).volume⟩ := by
  simp [CollisionShapeCache.get, hmiss, hvol]

/-- C2 amended witness: the single high vertex misses the band [0, 1] and the
call fails with the asset name and the zero measure. -/
theorem get_error_identifies_asset_and_measure_witness :
    cachedLookup [] (some "wall") = none
    ∧ (Shape2p5.CreateConvexHullFromPoints
        (extractedPoints highPointObj 0 1 Pose3.identity 1) 0 1).volume
        < minVolumeThreshold
    ∧ (CollisionShapeCache.get [] highPointObj 0 1 Pose3.identity 1
        (some "wall")).result
      = Except.error
          ⟨modelNameOf (some "wall"),
           (Shape2p5.CreateConvexHullFromPoints
             (extractedPoints highPointObj 0 1 Pose3.identity 1) 0 1).volume⟩ :=
  ⟨rfl,
   by norm_num [extractedPoints, VisualObject.allVertices, highPointObj,
      trisVertices, assimpVertices, transformVertex, Pose3.composePoint,
      Pose3.identity, Point3.smul, insideBand,
      Shape2p5.CreateConvexHullFromPoints, Shape2p5.volume, convexHullPoly,
      sortLex, insertLex, lexLt, halfHull, chainPush, cross2, polygonArea,
      shoelaceAux, Point3.projXY, minVolumeThreshold],
   get_error_identifies_asset_and_measure [] highPointObj 0 1 Pose3.identity 1
     (some "wall") rfl
     (by norm_num [extractedPoints, VisualObject.allVertices, highPointObj,
        trisVertices, assimpVertices, transformVertex, Pose3.composePoint,
        Pose3.identity, Point3.smul, insideBand,
        Shape2p5.CreateConvexHullFromPoints, Shape2p5.volume, convexHullPoly,
        sortLex, insertLex, lexLt, halfHull, chainPush, cross2, polygonArea,
        shoelaceAux, Point3.projXY, minVolumeThreshold])⟩

/-- C3: evaluation at the failing input.  A keyed call on geometry whose
vertices all miss the band fails with a geometry error, yet the identical
retry succeeds and returns the degenerate zero-volume shape, because the
failing call left the shape stored in the cache before throwing. -/
theorem get_failed_key_retry_succeeds :
    (CollisionShapeCache.get [] highPointObj 0 1 Pose3.identity 1
        (some "block")).result = Except.error ⟨"block", 0⟩
    ∧ (CollisionShapeCache.get
         (CollisionShapeCache.get [] highPointObj 0 1 Pose3.identity 1
           (some "block")).cache
         highPointObj 0 1 Pose3.identity 1 (some "block")).result
      = Except.ok emptyBlockShape := by
  constructor <;>
    norm_num [CollisionShapeCache.get, cachedLookup, AssocList.find?,
      extractedPoints, VisualObject.allVertices, highPointObj, emptyBlockShape,
      trisVertices, assimpVertices, transformVertex, Pose3.composePoint,
      Pose3.identity, Point3.smul, insideBand,
      Shape2p5.CreateConvexHullFromPoints, Shape2p5.volume, convexHullPoly,
      sortLex, insertLex, lexLt, halfHull, chainPush, cross2, polygonArea,
      shoelaceAux, Point3.projXY, minVolumeThreshold, modelNameOf,
      AssocList.store]

/-- C5: a vertex the visual object exposes contributes to the surviving
point set exactly when the z coordinate of the point obtained by scaling it
by modelScale and composing with modelPose lies in the closed band
[zMin, zMax]; boundary values are included. -/
theorem band_filter_membership_iff
    (obj : VisualObject) (zMin zMax : ℚ) (pose : Pose3) (scale : ℚ)
    (w : Point3) (hw : w ∈ VisualObject.allVertices obj) :
    transformVertex pose scale w ∈ extractedPoints obj zMin zMax pose scale
      ↔ (zMin ≤ (transformVertex pose scale w).z
         ∧ (transformVertex pose scale w).z ≤ zMax) := by
  unfold extractedPoints
  constructor
  · intro hmem
    have hkeep := (List.mem_filter.mp hmem).2
    simpa [insideBand, not_lt] using hkeep
  · intro hz
    refine List.mem_filter.mpr ⟨List.mem_map_of_mem _ hw, ?_⟩
    simpa [insideBand, not_lt] using hz

/-- C5 witness: the vertex (1, 0, 0) of the triangle object, at identity
pose and unit scale over the band [-1, 1]. -/
theorem band_filter_membership_iff_witness :
    (⟨1, 0, 0⟩ : Point3) ∈ VisualObject.allVertices triObj
    ∧ (transformVertex Pose3.identity 1 ⟨1, 0, 0⟩
         ∈ extractedPoints triObj (-1) 1 Pose3.identity 1
       ↔ (-1 ≤ (transformVertex Pose3.identity 1 ⟨1, 0, 0⟩).z
          ∧ (transformVertex Pose3.identity 1 ⟨1, 0, 0⟩).z ≤ 1)) :=
  ⟨by simp [VisualObject.allVertices, triObj, trisVertices, assimpVertices],
   band_filter_membership_iff triObj (-1) 1 Pose3.identity 1 ⟨1, 0, 0⟩
     (by simp [VisualObject.allVertices, triObj, trisVertices, assimpVertices])⟩

/-- C6: a computing call of CollisionShapeCache::get that returns a shape
returns one whose footprint is convex, contains the projection of every
surviving point used to build it, and carries the height band [zMin, zMax]
it was extruded from. -/
theorem get_shape_convex_contains_band
    (cache : CacheMap) (obj : VisualObject) (zMin zMax : ℚ) (pose : Pose3)
    (scale : ℚ) (modelFile : Option String) (s : Shape2p5)
    (hmiss : cachedLookup cache modelFile = none)
    (hok : (CollisionShapeCache.get cache obj zMin zMax pose scale modelFile).result
           = Except.ok s) :
    Convex ℚ s.footprint
    ∧ (∀ p ∈ extractedPoints obj zMin zMax pose scale,
        Point3.projXY p ∈ s.footprint)
    ∧ s.zMin = zMin ∧ s.zMax = zMax := by
  have hs : Shape2p5.CreateConvexHullFromPoints
      (extractedPoints obj zMin zMax pose scale) zMin zMax = s := by
    by_cases hv : (Shape2p5.CreateConvexHullFromPoints
        (extractedPoints obj zMin zMax pose scale) zMin zMax).volume
        < minVolumeThreshold
    · exfalso
      simp [CollisionShapeCache.get, hmiss, hv] at hok
    · simpa [CollisionShapeCache.get, hmiss, hv] using hok
  rw [← hs]
  refine ⟨convex_convexHull ℚ _, ?_, rfl, rfl⟩
  intro p hp
  have hmem : Point3.projXY p ∈ {q : ℚ × ℚ |
      q ∈ (Shape2p5.CreateConvexHullFromPoints
        (extractedPoints obj zMin zMax pose scale) zMin zMax).contour} := by
    simpa [Shape2p5.CreateConvexHullFromPoints] using
      List.mem_map_of_mem Point3.projXY hp
  exact subset_convexHull ℚ _ hmem

/-- C6 witness: the keyless computing call on the triangle object over the
band [-1, 1]. -/
theorem get_shape_convex_contains_band_witness :
    cachedLookup [] none = none
    ∧ (CollisionShapeCache.get [] triObj (-1) 1 Pose3.identity 1 none).result
        = Except.ok triShape
    ∧ (Convex ℚ triShape.footprint
       ∧ (∀ p ∈ extractedPoints triObj (-1) 1 Pose3.identity 1,
           Point3.projXY p ∈ triShape.footprint)
       ∧ triShape.zMin = -1 ∧ triShape.zMax = 1) :=
  ⟨rfl,
   by norm_num [CollisionShapeCache.get, cachedLookup, AssocList.find?,
      extractedPoints, VisualObject.allVertices, triObj, triShape, trisVertices,
      assimpVertices, transformVertex, Pose3.composePoint, Pose3.identity,
      Point3.smul, insideBand, Shape2p5.CreateConvexHullFromPoints,
      Shape2p5.volume, convexHullPoly, sortLex, insertLex, lexLt, halfHull,
      chainPush, cross2, polygonArea, shoelaceAux, Point3.projXY,
      minVolumeThreshold, modelNameOf, AssocList.store],
   get_shape_convex_contains_band [] triObj (-1) 1 Pose3.identity 1 none
     triShape rfl
     (by norm_num [CollisionShapeCache.get, cachedLookup, AssocList.find?,
        extractedPoints, VisualObject.allVertices, triObj, triShape, trisVertices,
        assimpVertices, transformVertex, Pose3.composePoint, Pose3.identity,
        Point3.smul, insideBand, Shape2p5.CreateConvexHullFromPoints,
        Shape2p5.volume, convexHullPoly, sortLex, insertLex, lexLt, halfHull,
        chainPush, cross2, polygonArea, shoelaceAux, Point3.projXY,
        minVolumeThreshold, modelNameOf, AssocList.store])⟩

/-- C7: a call without an asset key leaves the cache map unchanged; its
outcome does not depend on the cache state at all; and two keyless computing
calls on the same geometry, one at unit scale and one at scale s with the
band scaled accordingly, yield hulls whose stored points are scaled
accordingly — each computed independently, with no cross-call memoization. -/
theorem get_no_key_transparent_and_scales :
    (∀ (cache : CacheMap) (obj : VisualObject) (z1 z2 : ℚ) (pose : Pose3)
        (sc : ℚ),
      (CollisionShapeCache.get cache obj z1 z2 pose sc none).cache = cache)
    ∧ (∀ (c1 c2 : CacheMap) (obj : VisualObject) (z1 z2 : ℚ) (pose : Pose3)
          (sc : ℚ),
        (CollisionShapeCache.get c1 obj z1 z2 pose sc none).result
          = (CollisionShapeCache.get c2 obj z1 z2 pose sc none).result)
    ∧ (∀ (obj : VisualObject) (z1 z2 s : ℚ) (c1 c2 : CacheMap)
          (sh1 sh2 : Shape2p5), 0 < s →
        (CollisionShapeCache.get c1 obj z1 z2 Pose3.identity 1 none).result
          = Except.ok sh1 →
        (CollisionShapeCache.get c2 obj (s * z1) (s * z2) Pose3.identity s
            none).result = Except.ok sh2 →
        sh2.contour = sh1.contour.map fun q => (s * q.1, s * q.2)) := by
  refine ⟨?_, ?_, ?_⟩
  · intro cache obj z1 z2 pose sc
    simp only [CollisionShapeCache.get, cachedLookup]
    split <;> rfl
  · intro c1 c2 obj z1 z2 pose sc
    simp only [CollisionShapeCache.get, cachedLookup]
    rw [apply_ite GetResult.result, apply_ite GetResult.result]
  · intro obj z1 z2 s c1 c2 sh1 sh2 hs h1 h2
    have e1 : Shape2p5.CreateConvexHullFromPoints
        (extractedPoints obj z1 z2 Pose3.identity 1) z1 z2 = sh1 := by
      by_cases hv : (Shape2p5.CreateConvexHullFromPoints
          (extractedPoints obj z1 z2 Pose3.identity 1) z1 z2).volume
          < minVolumeThreshold
      · exfalso
        simp [CollisionShapeCache.get, cachedLookup, hv] at h1
      · simpa [CollisionShapeCache.get, cachedLookup, hv] using h1
    have e2 : Shape2p5.CreateConvexHullFromPoints
        (extractedPoints obj (s * z1) (s * z2) Pose3.identity s)
        (s * z1) (s * z2) = sh2 := by
      by_cases hv : (Shape2p5.CreateConvexHullFromPoints
          (extractedPoints obj (s * z1) (s * z2) Pose3.identity s)
          (s * z1) (s * z2)).volume < minVolumeThreshold
      · exfalso
        simp [CollisionShapeCache.get, cachedLookup, hv] at h2
      · simpa [CollisionShapeCache.get, cachedLookup, hv] using h2
    rw [← e1, ← e2]
    simp only [Shape2p5.CreateConvexHullFromPoints]
    rw [extractedPoints_scale obj z1 z2 s hs, List.map_map, List.map_map]
    congr 1
    funext p
    simp [Function.comp, Point3.projXY, Point3.smul, mul_comm]

/-- C7 witness: the triangle object at unit scale over [-1, 1] and at scale
2 over [-2, 2] yields the correspondingly scaled contour. -/
theorem get_no_key_transparent_and_scales_witness :
    (0 : ℚ) < 2
    ∧ (CollisionShapeCache.get [] triObj (-1) 1 Pose3.identity 1 none).result
        = Except.ok triShape
    ∧ (CollisionShapeCache.get [] triObj (2 * -1) (2 * 1) Pose3.identity 2
        none).result = Except.ok scaledTriShape
    ∧ scaledTriShape.contour = triShape.contour.map fun q => (2 * q.1, 2 * q.2) :=
  ⟨by norm_num,
   by norm_num [CollisionShapeCache.get, cachedLookup, AssocList.find?,
      extractedPoints, VisualObject.allVertices, triObj, triShape, trisVertices,
      assimpVertices, transformVertex, Pose3.composePoint, Pose3.identity,
      Point3.smul, insideBand, Shape2p5.CreateConvexHullFromPoints,
      Shape2p5.volume, convexHullPoly, sortLex, insertLex, lexLt, halfHull,
      chainPush, cross2, polygonArea, shoelaceAux, Point3.projXY,
      minVolumeThreshold, modelNameOf, AssocList.store],
   by norm_num [CollisionShapeCache.get, cachedLookup, AssocList.find?,
      extractedPoints, VisualObject.allVertices, triObj, scaledTriShape,
      trisVertices, assimpVertices, transformVertex, Pose3.composePoint,
      Pose3.identity, Point3.smul, insideBand,
      Shape2p5.CreateConvexHullFromPoints, Shape2p5.volume, convexHullPoly,
      sortLex, insertLex, lexLt, halfHull, chainPush, cross2, polygonArea,
      shoelaceAux, Point3.projXY, minVolumeThreshold, modelNameOf,
      AssocList.store],
   get_no_key_transparent_and_scales.2.2 triObj (-1) 1 2 [] [] triShape
     scaledTriShape (by norm_num)
     (by norm_num [CollisionShapeCache.get, cachedLookup, AssocList.find?,
        extractedPoints, VisualObject.allVertices, triObj, triShape, trisVertices,
        assimpVertices, transformVertex, Pose3.composePoint, Pose3.identity,
        Point3.smul, insideBand, Shape2p5.CreateConvexHullFromPoints,
        Shape2p5.volume, convexHullPoly, sortLex, insertLex, lexLt, halfHull,
        chainPush, cross2, polygonArea, shoelaceAux, Point3.projXY,
        minVolumeThreshold, modelNameOf, AssocList.store])
     (by norm_num [CollisionShapeCache.get, cachedLookup, AssocList.find?,
        extractedPoints, VisualObject.allVertices, triObj, scaledTriShape,
        trisVertices, assimpVertices, transformVertex, Pose3.composePoint,
        Pose3.identity, Point3.smul, insideBand,
        Shape2p5.CreateConvexHullFromPoints, Shape2p5.volume, convexHullPoly,
        sortLex, insertLex, lexLt, halfHull, chainPush, cross2, polygonArea,
        shoelaceAux, Point3.projXY, minVolumeThreshold, modelNameOf,
        AssocList.store])⟩

end Mvsim
